import Mathlib

/-!
Verification of the pearson course-management system.

Shallow embedding of the SQLAlchemy model validators
(src/shared/models.py, src/pearson/models.py), the web CRUD routes
(src/pearson/web/routes.py), the CLI export command
(src/cli/commands.py), and the Markdown / Google-Docs import heuristics
(src/pearson/cli/course_injector.py, src/interop/google_docs/parser.py).
-/

namespace Pearson

/-! ## Python string primitives

`hasSubstr needle hay` is Python's `needle in hay` on strings; `pyLower`
is `str.lower()`; `pyCapitalize` is `str.capitalize()`. -/

/-- Python substring test `needle in hay` over character lists. -/
def hasSubstr : List Char → List Char → Bool
  | needle, [] => needle.isEmpty
  | needle, c :: rest => needle.isPrefixOf (c :: rest) || hasSubstr needle rest

/-- Python `needle in hay` on strings. -/
def strIn (needle hay : String) : Bool :=
  hasSubstr needle.toList hay.toList

/-- Python `str.lower()` (ASCII-relevant part). -/
def pyLower (s : String) : String :=
  String.mk (s.toList.map Char.toLower)

/-- Python `str.capitalize()`: first character upper-cased, rest lower-cased. -/
def pyCapitalize (s : String) : String :=
  match s.toList with
  | [] => ""
  | c :: rest => String.mk (Char.toUpper c :: rest.map Char.toLower)

/-! ## Model validators

From `src/shared/models.py` and `src/pearson/models.py` (the two files
carry character-identical validator bodies).  SQLAlchemy calls a
`@validates` hook on every assignment to the attribute; a raised
`ValueError` is modelled as `Except.error`. -/

/-- `Lesson.validate_duration`: `if duration is not None and duration <= 0: raise ValueError(...)`, else return the value unchanged. -/
def validate_duration (duration : Option Int) : Except String (Option Int) :=
  match duration with
  | none => Except.ok none
  | some d =>
      if d ≤ 0 then Except.error "Duration must be positive"
      else Except.ok (some d)

/-- `Lesson.validate_order`: `if order is not None and order <= 0: raise ValueError(...)`, else return the value unchanged. -/
def validate_order (order : Option Int) : Except String (Option Int) :=
  match order with
  | none => Except.ok none
  | some d =>
      if d ≤ 0 then Except.error "Order must be positive"
      else Except.ok (some d)

/-- `AssessmentFormat.validate_percentage`: `if percentage is not None and (percentage < 0 or percentage > 100): raise ValueError(...)`, else return the value unchanged.  The SQL `Float` column is modelled by `ℚ` (only order comparisons against 0 and 100 occur). -/
def validate_percentage (percentage : Option ℚ) : Except String (Option ℚ) :=
  match percentage with
  | none => Except.ok none
  | some p =>
      if p < 0 ∨ p > 100 then Except.error "Percentage must be between 0 and 100"
      else Except.ok (some p)

/-- `Course.validate_email`: `if email and '@' not in email: raise ValueError(...)`, else return the value unchanged.  Python truthiness of a string is non-emptiness. -/
def validate_email (email : Option String) : Except String (Option String) :=
  match email with
  | none => Except.ok none
  | some e =>
      if e ≠ "" ∧ strIn "@" e = false then Except.error "Invalid email format"
      else Except.ok (some e)

/-! ## Database rows and state

Row types mirror the column lists of `src/shared/models.py` (identical in
`src/pearson/models.py`).  `DateTime` columns are carried as their
already-serialized ISO strings, since only `isoformat()` of them is ever
read by the code under verification. -/

structure CourseRow where
  id : Nat
  title : String
  course_code : String
  instructor : Option String
  contact_email : Option String
  level : Option String
  language : Option String
  delivery_mode : Option String
  aim : Option String
  description : Option String
  objectives : Option String
  created_date : Option String
deriving DecidableEq

structure LessonRow where
  id : Nat
  course_id : Nat
  title : String
  content : Option String
  duration : Option Int
  order : Option Int
  activity_type : Option String
  assignment_description : Option String
  materials_needed : Option String
  created_date : Option String
deriving DecidableEq

structure LearningOutcomeRow where
  id : Nat
  course_id : Nat
  outcome_text : String
deriving DecidableEq

structure AssessmentFormatRow where
  id : Nat
  course_id : Nat
  format_type : String
  percentage : Option ℚ
  description : Option String
deriving DecidableEq

structure ToolRow where
  id : Nat
  course_id : Nat
  tool_name : String
deriving DecidableEq

/-- The persisted relational state: one list per table. -/
structure DBState where
  courses : List CourseRow
  lessons : List LessonRow
  learning_outcomes : List LearningOutcomeRow
  assessment_formats : List AssessmentFormatRow
  tools : List ToolRow
deriving DecidableEq

/-- The `unique=True` constraint on `courses.course_code`: pairwise distinct codes. -/
def codes_unique : List CourseRow → Bool
  | [] => true
  | c :: rest => rest.all (fun c2 => c2.course_code ≠ c.course_code) && codes_unique rest

/-- Whether the database backend raises an unexpected error at commit time
(an `OperationalError` etc.); constraint violations are checked separately. -/
inductive DbEnv
  | ok
  | fail
deriving DecidableEq

/-- `session.commit()`: the pending state is persisted only when the backend
is up and the unique constraint on course codes holds; otherwise the
statement raises and nothing is persisted. -/
def commit (env : DbEnv) (s : DBState) : Except Unit DBState :=
  match env with
  | .fail => Except.error ()
  | .ok => if codes_unique s.courses then Except.ok s else Except.error ()

/-! ## Web routes (`src/pearson/web/routes.py`)

Each POST handler is a function from the persisted state and the request
to a `RouteResult`: the state persisted afterwards, the HTTP-level
outcome, and whether the route called `session.rollback()`. -/

inductive Outcome
  | success
  | flashedError
  | uncaughtError
  | notFound
deriving DecidableEq

structure RouteResult where
  db : DBState
  outcome : Outcome
  rolledBack : Bool
deriving DecidableEq

/-- Request data for the course create/edit forms.  `formValid` is the
result of `form.validate_on_submit()` on the create route; the string
fields are the values after `request.form.get` defaulting. -/
structure CourseReq where
  formValid : Bool
  title : String
  course_code : String
  instructor : String
  contact_email : String
  level : String
  language : String
  delivery_mode : String
  aim : String
  description : String
  objectives : String
deriving DecidableEq

/-- `Course(...)` construction: SQLAlchemy fires `validate_email` on the
`contact_email` keyword assignment, so construction itself can raise. -/
def makeCourse (newId : Nat) (r : CourseReq) : Except String CourseRow :=
  match validate_email (some r.contact_email) with
  | Except.error e => Except.error e
  | Except.ok em =>
      Except.ok {
        id := newId
        title := r.title
        course_code := r.course_code
        instructor := some r.instructor
        contact_email := em
        level := some r.level
        language := some r.language
        delivery_mode := some r.delivery_mode
        aim := some r.aim
        description := some r.description
        objectives := some r.objectives
        created_date := none }

/-- The shared tail of every handler: commit the pending state; on success
flash success and redirect; on a raised error either the surrounding
`except` clause rolls back and flashes (`failOutcome = .flashedError`,
`failRolled = true`) or — on the one unprotected path — the exception
propagates (`failOutcome = .uncaughtError`, `failRolled = false`).  A
failed commit never persists the pending state. -/
def commitOr (env : DbEnv) (sOld sNew : DBState) (failOutcome : Outcome)
    (failRolled : Bool) : RouteResult :=
  match commit env sNew with
  | Except.ok s2 => { db := s2, outcome := .success, rolledBack := false }
  | Except.error _ => { db := sOld, outcome := failOutcome, rolledBack := failRolled }

/-- `create_course` (POST): the branch behind `form.validate_on_submit()`
constructs, adds and commits with no `try/except`, so any error there
propagates; the fallback POST branch wraps the same work in
`try/except` with `session.rollback()` and a flashed error. -/
def create_course (env : DbEnv) (s : DBState) (req : CourseReq) (newId : Nat) :
    RouteResult :=
  if req.formValid then
    match makeCourse newId req with
    | Except.error _ => { db := s, outcome := .uncaughtError, rolledBack := false }
    | Except.ok c =>
        commitOr env s { s with courses := s.courses ++ [c] } .uncaughtError false
  else
    match makeCourse newId req with
    | Except.error _ => { db := s, outcome := .flashedError, rolledBack := true }
    | Except.ok c =>
        commitOr env s { s with courses := s.courses ++ [c] } .flashedError true

/-- `edit_course` (POST): query the course, reassign every form field
(`contact_email` again fires the validator) and commit, all inside
`try/except` with rollback and a flashed error. -/
def edit_course (env : DbEnv) (s : DBState) (cid : Nat) (req : CourseReq) :
    RouteResult :=
  match s.courses.find? (fun c => c.id == cid) with
  | none => { db := s, outcome := .notFound, rolledBack := false }
  | some c =>
      match validate_email (some req.contact_email) with
      | Except.error _ => { db := s, outcome := .flashedError, rolledBack := true }
      | Except.ok em =>
          let c2 := { c with
            title := req.title
            course_code := req.course_code
            instructor := some req.instructor
            contact_email := em
            level := some req.level
            language := some req.language
            delivery_mode := some req.delivery_mode
            aim := some req.aim
            description := some req.description
            objectives := some req.objectives }
          let s2 := { s with
            courses := s.courses.map (fun x => if x.id = cid then c2 else x) }
          commitOr env s s2 .flashedError true

/-- The ORM-level `cascade="all, delete-orphan"` declared on
`Course.lessons`, `Course.learning_outcomes`, `Course.assessment_formats`
and `Course.tools`: `session.delete(course)` removes every child row
referencing the course. -/
def cascadeDelete (s : DBState) (cid : Nat) : DBState :=
  { courses := s.courses.filter (fun c => c.id ≠ cid)
    lessons := s.lessons.filter (fun l => l.course_id ≠ cid)
    learning_outcomes := s.learning_outcomes.filter (fun o => o.course_id ≠ cid)
    assessment_formats := s.assessment_formats.filter (fun a => a.course_id ≠ cid)
    tools := s.tools.filter (fun t => t.course_id ≠ cid) }

/-- `delete_course` (POST): query, `session.delete`, commit, inside
`try/except` with rollback and flashed error. -/
def delete_course (env : DbEnv) (s : DBState) (cid : Nat) : RouteResult :=
  match s.courses.find? (fun c => c.id == cid) with
  | none => { db := s, outcome := .notFound, rolledBack := false }
  | some _ => commitOr env s (cascadeDelete s cid) .flashedError true

/-- `delete_lesson` (POST): query, `session.delete`, commit, inside
`try/except` with rollback and flashed error. -/
def delete_lesson (env : DbEnv) (s : DBState) (lid : Nat) : RouteResult :=
  match s.lessons.find? (fun l => l.id == lid) with
  | none => { db := s, outcome := .notFound, rolledBack := false }
  | some _ =>
      commitOr env s { s with lessons := s.lessons.filter (fun l => l.id ≠ lid) }
        .flashedError true

/-- Request data for the lesson create/edit forms.  `title = none` models a
POST without a `title` field, where `request.form['title']` raises
`KeyError`; `order_raw`/`duration_raw` are the raw form strings handed to
`int()` (absent means `request.form.get` returns the integer default). -/
structure LessonReq where
  title : Option String
  content : String
  duration_raw : Option String
  order_raw : Option String
  activity_type : String
  assignment_description : String
  materials_needed : String
deriving DecidableEq

/-- Python `int(s)` on a form string (whitespace-tolerant decimal parse). -/
def pyInt? (s : String) : Option Int :=
  s.trim.toInt?

/-- `int(request.form.get(key, dflt))` wrapped in `try/except ValueError`
with a constant fallback, as in `create_lesson`. -/
def pyIntOr (raw : Option String) (dflt : Int) : Int :=
  match raw with
  | none => dflt
  | some s =>
      match pyInt? s with
      | none => dflt
      | some n => n

/-- `Lesson(...)` construction inside `create_lesson`: the missing-title
`KeyError` fires first, then the `validate_duration` / `validate_order`
hooks on the keyword assignments. -/
def makeLesson (newId cid : Nat) (r : LessonReq) : Except String LessonRow :=
  match r.title with
  | none => Except.error "KeyError: title"
  | some t =>
      let duration := pyIntOr r.duration_raw 60
      let order := pyIntOr r.order_raw 1
      match validate_duration (some duration) with
      | Except.error e => Except.error e
      | Except.ok dv =>
          match validate_order (some order) with
          | Except.error e => Except.error e
          | Except.ok ov =>
              Except.ok {
                id := newId
                course_id := cid
                title := t
                content := some r.content
                duration := dv
                order := ov
                activity_type := some r.activity_type
                assignment_description := some r.assignment_description
                materials_needed := some r.materials_needed
                created_date := none }

/-- `create_lesson` (POST): query the course, build the lesson (numeric
fields fall back to 1/60 on `int()` failure), add and commit, all inside
`try/except` with rollback and a flashed error. -/
def create_lesson (env : DbEnv) (s : DBState) (cid : Nat) (req : LessonReq)
    (newId : Nat) : RouteResult :=
  match s.courses.find? (fun c => c.id == cid) with
  | none => { db := s, outcome := .notFound, rolledBack := false }
  | some _ =>
      match makeLesson newId cid req with
      | Except.error _ => { db := s, outcome := .flashedError, rolledBack := true }
      | Except.ok l =>
          commitOr env s { s with lessons := s.lessons ++ [l] } .flashedError true

/-- The `try: lesson.order = int(...) except ValueError: pass` line of
`edit_lesson`: both an `int()` failure and the positivity validator's
`ValueError` are swallowed by the inner except, keeping the stored value. -/
def editLessonOrder (l : LessonRow) (raw : Option String) : Option Int :=
  let parsed : Option Int :=
    match raw with
    | none => some 1
    | some s => pyInt? s
  match parsed with
  | none => l.order
  | some n =>
      match validate_order (some n) with
      | Except.error _ => l.order
      | Except.ok v => v

/-- The matching `lesson.duration` line of `edit_lesson` (default 60). -/
def editLessonDuration (l : LessonRow) (raw : Option String) : Option Int :=
  let parsed : Option Int :=
    match raw with
    | none => some 60
    | some s => pyInt? s
  match parsed with
  | none => l.duration
  | some n =>
      match validate_duration (some n) with
      | Except.error _ => l.duration
      | Except.ok v => v

/-- `edit_lesson` (POST): query the lesson, reassign its fields (numeric
assignments keep the stored value on any `ValueError`; a missing title
raises `KeyError` into the outer except), commit, all inside `try/except`
with rollback and a flashed error. -/
def edit_lesson (env : DbEnv) (s : DBState) (lid : Nat) (req : LessonReq) :
    RouteResult :=
  match s.lessons.find? (fun l => l.id == lid) with
  | none => { db := s, outcome := .notFound, rolledBack := false }
  | some l =>
      match req.title with
      | none => { db := s, outcome := .flashedError, rolledBack := true }
      | some t =>
          let l2 := { l with
            order := editLessonOrder l req.order_raw
            duration := editLessonDuration l req.duration_raw
            title := t
            content := some req.content
            activity_type := some req.activity_type
            assignment_description := some req.assignment_description
            materials_needed := some req.materials_needed }
          let s2 := { s with
            lessons := s.lessons.map (fun x => if x.id = lid then l2 else x) }
          commitOr env s s2 .flashedError true

/-! ## CLI export (`src/cli/commands.py`, `CLICommands.export_data`)

Python values and dynamic attribute access are modelled explicitly,
because `export_data` reads `lesson.objectives` and the `Lesson` model
declares no such column: that access raises `AttributeError`. -/

inductive PyVal where
  | vNone
  | vInt (n : Int)
  | vStr (s : String)
  | vList (vs : List PyVal)
  | vDict (entries : List (String × PyVal))

/-- Python truthiness of the modelled values. -/
def pyTruthy : PyVal → Bool
  | .vNone => false
  | .vInt n => n ≠ 0
  | .vStr s => s ≠ ""
  | .vList vs => !vs.isEmpty
  | .vDict es => !es.isEmpty

/-- Python `a or b`. -/
def pyOr (a b : PyVal) : PyVal :=
  if pyTruthy a then a else b

/-- A nullable string column as a Python value. -/
def optStr : Option String → PyVal
  | none => .vNone
  | some s => .vStr s

/-- A nullable integer column as a Python value. -/
def optInt : Option Int → PyVal
  | none => .vNone
  | some n => .vInt n

/-- Python attribute access on a `Lesson` instance: defined for exactly the
columns of the model (`shared/models.py`), `AttributeError` otherwise. -/
def lessonGetAttr (l : LessonRow) (attr : String) : Except String PyVal :=
  if attr = "id" then Except.ok (.vInt l.id)
  else if attr = "course_id" then Except.ok (.vInt l.course_id)
  else if attr = "title" then Except.ok (.vStr l.title)
  else if attr = "content" then Except.ok (optStr l.content)
  else if attr = "duration" then Except.ok (optInt l.duration)
  else if attr = "order" then Except.ok (optInt l.order)
  else if attr = "activity_type" then Except.ok (optStr l.activity_type)
  else if attr = "assignment_description" then Except.ok (optStr l.assignment_description)
  else if attr = "materials_needed" then Except.ok (optStr l.materials_needed)
  else if attr = "created_date" then Except.ok (optStr l.created_date)
  else Except.error ("AttributeError: " ++ attr)

/-- The per-lesson dictionary built inside `export_data` (keys and `or ''`
defaults as in the source): the `objectives` access goes through
`lessonGetAttr` and can fail. -/
def exportLessonDict (l : LessonRow) : Except String PyVal := do
  let idv ← lessonGetAttr l "id"
  let orderv ← lessonGetAttr l "order"
  let titlev ← lessonGetAttr l "title"
  let contentv ← lessonGetAttr l "content"
  let durationv ← lessonGetAttr l "duration"
  let objectivesv ← lessonGetAttr l "objectives"
  let materialsv ← lessonGetAttr l "materials_needed"
  let createdv ← lessonGetAttr l "created_date"
  Except.ok (PyVal.vDict [
    ("id", idv),
    ("order", orderv),
    ("title", titlev),
    ("content", pyOr contentv (.vStr "")),
    ("duration", durationv),
    ("objectives", pyOr objectivesv (.vStr "")),
    ("materials_needed", pyOr materialsv (.vStr "")),
    ("created_date", createdv)])

/-- The course sub-dictionary of `export_data` (every attribute read there
exists on the `Course` model, so this part cannot fail). -/
def exportCourseDict (c : CourseRow) : PyVal :=
  PyVal.vDict [
    ("id", .vInt c.id),
    ("title", .vStr c.title),
    ("code", pyOr (.vStr c.course_code) (.vStr "")),
    ("description", pyOr (optStr c.description) (.vStr "")),
    ("instructor", pyOr (optStr c.instructor) (.vStr "")),
    ("contact_email", pyOr (optStr c.contact_email) (.vStr "")),
    ("objectives", pyOr (optStr c.objectives) (.vStr "")),
    ("created_date", optStr c.created_date)]

/-- The Python loop `for x in xs: out.append(f(x))` where `f` can raise. -/
def mapExcept {α β : Type} (f : α → Except String β) : List α → Except String (List β)
  | [] => Except.ok []
  | a :: as =>
      match f a with
      | Except.error e => Except.error e
      | Except.ok b =>
          match mapExcept f as with
          | Except.error e => Except.error e
          | Except.ok bs => Except.ok (b :: bs)

/-- `ORDER BY lessons.order` (ascending, NULLs first), as a stable insertion sort. -/
def lessonLe (a b : LessonRow) : Bool :=
  match a.order, b.order with
  | none, _ => true
  | some _, none => false
  | some x, some y => x ≤ y

def insertByOrder (l : LessonRow) : List LessonRow → List LessonRow
  | [] => [l]
  | x :: xs => if lessonLe x l then x :: insertByOrder l xs else l :: x :: xs

def sortByOrder (ls : List LessonRow) : List LessonRow :=
  ls.foldl (fun acc l => insertByOrder l acc) []

/-- `lesson.duration or 0` inside the metadata sum. -/
def lessonDurationOrZero (l : LessonRow) : Int :=
  match l.duration with
  | none => 0
  | some d => d

/-- `CLICommands.export_data` from `src/cli/commands.py`: returns the
Python boolean result and, when the data dictionary was fully built, that
dictionary.  The whole body sits in `try/except`, so any raised error
prints a message and yields `False`.  File writing is a side effect and
PyYAML is assumed importable; `now` stands for `datetime.now().isoformat()`. -/
def export_data (s : DBState) (course_id : Nat) (fmt now : String) :
    Bool × Option PyVal :=
  match s.courses.find? (fun c => c.id == course_id) with
  | none => (false, none)
  | some course =>
      let lessons := sortByOrder (s.lessons.filter (fun l => l.course_id == course_id))
      match mapExcept exportLessonDict lessons with
      | Except.error _ => (false, none)
      | Except.ok lessonDicts =>
          let data := PyVal.vDict [
            ("course", exportCourseDict course),
            ("lessons", .vList lessonDicts),
            ("metadata", PyVal.vDict [
              ("exported_at", .vStr now),
              ("total_lessons", .vInt lessons.length),
              ("total_duration",
                .vInt (lessons.foldl (fun acc l => acc + lessonDurationOrZero l) 0))])]
          if fmt = "csv" then
            match mapExcept (fun l => lessonGetAttr l "objectives") lessons with
            | Except.error _ => (false, none)
            | Except.ok _ => (true, some data)
          else (true, some data)

/-! ## Bloom level classification
(`src/interop/google_docs/parser.py`, `GoogleDocsParser._classify_bloom_level`) -/

/-- The fixed keyword table, in Python dict insertion order. -/
def bloom_keywords : List (String × List String) := [
  ("remember",
    ["define", "describe", "identify", "label", "list", "match", "name", "recall",
     "state"]),
  ("understand",
    ["explain", "summarize", "paraphrase", "classify", "compare", "contrast",
     "discuss", "predict"]),
  ("apply",
    ["demonstrate", "execute", "implement", "solve", "use", "illustrate", "sketch",
     "operate"]),
  ("analyze",
    ["analyze", "differentiate", "organize", "attribute", "deconstruct", "integrate",
     "correlate"]),
  ("evaluate",
    ["critique", "evaluate", "judge", "justify", "argue", "defend", "select",
     "support"]),
  ("create",
    ["create", "design", "formulate", "write", "construct", "develop", "produce",
     "plan"])]

/-- The `for level, keywords in bloom_keywords.items()` loop with its early
`return level.capitalize()`. -/
def classify_bloom_level_loop : List (String × List String) → String → String
  | [], _ => "Unknown"
  | (level, keywords) :: rest, dl =>
      if keywords.any (fun kw => strIn kw dl) then pyCapitalize level
      else classify_bloom_level_loop rest dl

/-- `GoogleDocsParser._classify_bloom_level`. -/
def classify_bloom_level (description : String) : String :=
  classify_bloom_level_loop bloom_keywords (pyLower description)

/-- Spec-side reading of C7, written from the claim text: the capitalized
name of the first level in the fixed order whose keyword table has a keyword
occurring as a substring of the lowercased description, else Unknown. -/
def bloomLevelSpec (description : String) : String :=
  match bloom_keywords.find?
      (fun lk => lk.2.any (fun kw => strIn kw (pyLower description))) with
  | some lk => pyCapitalize lk.1
  | none => "Unknown"

/-! ## Markdown syllabus import
(`src/pearson/cli/course_injector.py`, `CourseInjector`)

The Python `re` library is abstracted as a `RegexEngine`: `search`
returns the capture groups of the first match (group 1 first), and
`findallN` returns the group tuples of every match of an N-group
pattern.  The parser's control flow, defaults and classification tables
are embedded from the source; the pattern strings identify each call. -/

structure RegexEngine where
  search : String → String → Option (String × List String)
  findall1 : String → String → List String
  findall2 : String → String → List (String × String)
  findall3 : String → String → List (String × String × String)
  findall4 : String → String → List (String × String × String × String)

def title_pattern : String := "# ([^\\n]+)"
def course_code_pattern : String := "\\*\\*Course Code\\*\\*:\\s*([^\\n]+)"
def level_pattern : String := "\\*\\*Level\\*\\*:\\s*([^\\n]+)"
def instructor_pattern : String := "\\*\\*Instructor\\*\\*:\\s*([^\\n]+)"
def language_pattern : String := "\\*\\*Language\\*\\*:\\s*([^\\n]+)"
def delivery_pattern : String := "\\*\\*Delivery\\*\\*:\\s*([^\\n]+)"
def aim_pattern : String := "## Course Aim\\s*\\n([^\\n]+)"
def lo_pattern : String := "- \\*\\*(LO\\d+)\\**:\\s*([^\\n]+)"
def weekly_pattern : String := "## Weekly Structure\\s*(.*?)(?=##|\\Z)"
def weekly_alt_pattern : String := "## Weekly Breakdown\\s*(.*?)(?=##|\\Z)"
def table4_pattern : String := "\\| (\\d+) \\| ([^|]+) \\| ([^|]+) \\| ([^|]+) \\|"
def table3_pattern : String := "\\| (\\d+) \\| ([^|]+) \\| ([^|]+) \\|"
def assessment_section_pattern : String := "## Assessment Formats\\s*\\n((?:- [^\\n]+\\n?)+)"
def assessment_item_pattern : String := "- ([^\\n]+)"
def tools_section_pattern : String := "## Required Tools & Software\\s*(.*?)(?=##|\\Z)"
def hardware_pattern : String := "Minimum computer specs:\\s*((?:\\s+- [^\\n]+\\n?)+)"
def software_pattern : String := "Software:\\s*([^\\n]+)"
def ai_tools_pattern : String := "AI tools:\\s*([^\\n]+)"

/-- `CourseInjector._extract_value`: `match.group(1).strip()` or the default. -/
def extract_value (E : RegexEngine) (pattern content default : String) : String :=
  match E.search pattern content with
  | some (g1, _) => g1.trim
  | none => default

/-- `CourseInjector._classify_assessment_type`. -/
def classify_assessment_type (content : String) : String :=
  let cl := pyLower content
  if ["written", "essay", "report"].any (fun w => strIn w cl) then
    "Written Assignment"
  else if ["presentation", "slide", "demo"].any (fun w => strIn w cl) then
    "Presentation"
  else if ["portfolio", "collection", "showcase"].any (fun w => strIn w cl) then
    "Portfolio"
  else if ["reflective", "journal", "diary"].any (fun w => strIn w cl) then
    "Reflective Writing"
  else "Assignment"

structure LOEntry where
  code : String
  description : String
deriving DecidableEq

structure WeekEntry where
  week : Nat
  topic : String
  activity : String
  assignment : String
deriving DecidableEq

structure AssessmentEntry where
  type : String
  requirements : String
deriving DecidableEq

structure ToolEntry where
  category : String
  name : String
  specifications : String
  description : String
deriving DecidableEq

/-- A 4-column table row:  `int(week_num)` is `String.toNat?`, raising on a
non-numeric capture. -/
def weekRow4 (t : String × String × String × String) : Except String WeekEntry :=
  match t.1.toNat? with
  | none => Except.error "ValueError: invalid literal for int()"
  | some n => Except.ok { week := n, topic := t.2.1.trim,
                          activity := t.2.2.1.trim, assignment := t.2.2.2.trim }

/-- A 3-column table row, with the documented default activity. -/
def weekRow3 (t : String × String × String) : Except String WeekEntry :=
  match t.1.toNat? with
  | none => Except.error "ValueError: invalid literal for int()"
  | some n => Except.ok { week := n, topic := t.2.1.trim,
                          activity := "Lecture", assignment := t.2.2.trim }

/-- The table rows of `_parse_standard_weekly_structure`: 4-column rows, or
3-column rows when no 4-column row matched. -/
def parseWeekTables (E : RegexEngine) (body : String) :
    Except String (List WeekEntry) :=
  match mapExcept weekRow4 (E.findall4 table4_pattern body) with
  | Except.error e => Except.error e
  | Except.ok weeks4 =>
      if weeks4.isEmpty then
        mapExcept weekRow3 (E.findall3 table3_pattern body)
      else Except.ok weeks4

/-- `CourseInjector._parse_standard_weekly_structure`: the section body (or
the alternative section), else no weeks at all. -/
def parse_standard_weekly_structure (E : RegexEngine) (md : String) :
    Except String (List WeekEntry) :=
  match E.search weekly_pattern md with
  | some (body, _) => parseWeekTables E body
  | none =>
      match E.search weekly_alt_pattern md with
      | some (body, _) => parseWeekTables E body
      | none => Except.ok []

/-- `CourseInjector._parse_standard_tools_section`: one hardware entry, the
comma-separated software list, the comma-separated AI tools list; empty when
the section is missing. -/
def parse_standard_tools_section (E : RegexEngine) (md : String) : List ToolEntry :=
  match E.search tools_section_pattern md with
  | none => []
  | some (section_content, _) =>
      let hardware : List ToolEntry :=
        match E.search hardware_pattern section_content with
        | none => []
        | some (h, _) =>
            [{ category := "Hardware", name := "Computer System",
               specifications := h.trim,
               description := "Minimum computer specifications for the course" }]
      let software : List ToolEntry :=
        match E.search software_pattern section_content with
        | none => []
        | some (sw, _) =>
            ((sw.splitOn ",").map String.trim).filterMap (fun s =>
              if s ≠ "" then
                some { category := "Software", name := s, specifications := "",
                       description := "Required software: " ++ s }
              else none)
      let ai : List ToolEntry :=
        match E.search ai_tools_pattern section_content with
        | none => []
        | some (a, _) =>
            ((a.splitOn ",").map String.trim).filterMap (fun s =>
              if s ≠ "" then
                some { category := "AI Tools", name := s, specifications := "",
                       description := "AI tool: " ++ s }
              else none)
      hardware ++ software ++ ai

/-- The parsed syllabus dictionary of `parse_comprehensive_syllabus`. -/
structure SyllabusData where
  title : String
  course_code : String
  level : String
  instructor : String
  language : String
  delivery_mode : String
  aim : String
  learning_outcomes : List LOEntry
  weeks : List WeekEntry
  assessment_formats : List AssessmentEntry
  tools : List ToolEntry
deriving DecidableEq

/-- `CourseInjector.parse_comprehensive_syllabus`: regex field extraction
with documented defaults; only the week-number `int()` conversion can raise. -/
def parse_comprehensive_syllabus (E : RegexEngine) (md : String) :
    Except String SyllabusData :=
  match parse_standard_weekly_structure E md with
  | Except.error e => Except.error e
  | Except.ok weeks =>
      Except.ok {
        title := extract_value E title_pattern md "Course Title"
        course_code := extract_value E course_code_pattern md "CODE-001"
        level := extract_value E level_pattern md "HND Art & Design"
        instructor := extract_value E instructor_pattern md "Kerem"
        language := extract_value E language_pattern md "English"
        delivery_mode := extract_value E delivery_pattern md "Weekly seminars"
        aim := extract_value E aim_pattern md "Course aim not specified"
        learning_outcomes := (E.findall2 lo_pattern md).map
          (fun m => { code := m.1, description := m.2.trim })
        weeks := weeks
        assessment_formats :=
          match E.search assessment_section_pattern md with
          | none => []
          | some (body, _) =>
              (E.findall1 assessment_item_pattern body).map
                (fun m => { type := classify_assessment_type m, requirements := m })
        tools := parse_standard_tools_section E md }

/-- The guarantee the real `re` module gives for the `(\d+)` week-number
group of the two table patterns: it always captures a numeral. -/
def RegexEngine.WeekNumbersNumeric (E : RegexEngine) : Prop :=
  (∀ body t, t ∈ E.findall4 table4_pattern body → (t.1.toNat?).isSome = true)
  ∧ (∀ body t, t ∈ E.findall3 table3_pattern body → (t.1.toNat?).isSome = true)

/-- An engine on which nothing matches (e.g. plain `re` run on content
matched by no pattern). -/
def nullEngine : RegexEngine :=
  { search := fun _ _ => none
    findall1 := fun _ _ => []
    findall2 := fun _ _ => []
    findall3 := fun _ _ => []
    findall4 := fun _ _ => [] }

/-! ## Google Docs parser default structure
(`src/interop/google_docs/parser.py`, `GoogleDocsParser.parse_to_course_structure`) -/

/-- The content dictionary delivered by `GoogleDocsClient.get_content`. -/
structure GDocContent where
  raw_document : String
deriving DecidableEq

/-- The course-structure dictionary produced by the Google Docs parser
(fields read by the claim; `error` is the metadata error message). -/
structure GCourseStructure where
  title : String
  source_platform : String
  learning_outcomes : List LOEntry
  assessment_formats : List AssessmentEntry
  tools : List ToolEntry
  lessons : List WeekEntry
  error : Option String
deriving DecidableEq

/-- The default structure returned for missing content. -/
def emptyGCourseStructure : GCourseStructure :=
  { title := "Untitled", source_platform := "google_docs",
    learning_outcomes := [], assessment_formats := [], tools := [],
    lessons := [], error := some "No content provided" }

/-- `GoogleDocsParser.parse_to_course_structure`: the
`if not external_content` guard returns the default structure; the
non-empty branch (structure parsing and course mapping) is abstracted as
`restParse`, which the claim does not touch. -/
def parse_to_course_structure (restParse : GDocContent → GCourseStructure)
    (external_content : Option GDocContent) : GCourseStructure :=
  match external_content with
  | none => emptyGCourseStructure
  | some content => restParse content

/-! ## Concrete example data for witnesses and counterexamples -/

/-- A course row with only the required columns filled. -/
def mkCourseRow (i : Nat) (code : String) : CourseRow :=
  { id := i, title := "T", course_code := code, instructor := none,
    contact_email := none, level := none, language := none,
    delivery_mode := none, aim := none, description := none,
    objectives := none, created_date := none }

/-- A lesson row with the given duration and order. -/
def mkLessonRow (i cid : Nat) (dur ord : Option Int) : LessonRow :=
  { id := i, course_id := cid, title := "L", content := none, duration := dur,
    order := ord, activity_type := none, assignment_description := none,
    materials_needed := none, created_date := none }

/-- Two courses, each with children, for exercising the cascade delete. -/
def dbTwoCourses : DBState :=
  { courses := [mkCourseRow 1 "CS101", mkCourseRow 2 "CS102"]
    lessons := [mkLessonRow 1 1 (some 60) (some 1), mkLessonRow 2 2 (some 30) (some 1)]
    learning_outcomes := [{ id := 1, course_id := 1, outcome_text := "LO" }]
    assessment_formats := [{ id := 1, course_id := 1, format_type := "Exam",
                             percentage := some 50, description := none }]
    tools := [{ id := 1, course_id := 1, tool_name := "Figma" }] }

/-- One course with code CS101 and no children. -/
def dbOneCourse : DBState :=
  { courses := [mkCourseRow 1 "CS101"], lessons := [], learning_outcomes := [],
    assessment_formats := [], tools := [] }

/-- A create/edit request whose course code duplicates the stored CS101. -/
def reqDup : CourseReq :=
  { formValid := true, title := "T2", course_code := "CS101", instructor := "",
    contact_email := "x@y", level := "", language := "English",
    delivery_mode := "", aim := "", description := "", objectives := "" }

/-- The same request arriving on the fallback POST path (form not validated). -/
def reqDupFallback : CourseReq :=
  { reqDup with formValid := false }

/-- A well-formed lesson request (title present, numeric fields defaulted). -/
def lreqPlain : LessonReq :=
  { title := some "L2", content := "", duration_raw := none, order_raw := none,
    activity_type := "", assignment_description := "", materials_needed := "" }

/-! ## Claim theorems -/

theorem commit_ok_eq {env : DbEnv} {s s2 : DBState}
    (h : commit env s = Except.ok s2) : s2 = s := by
  cases env with
  | fail => simp [commit] at h
  | ok =>
      cases hu : codes_unique s.courses with
      | true => simp [commit, hu] at h; exact h.symm
      | false => simp [commit, hu] at h

theorem commit_ok_unique {env : DbEnv} {s s2 : DBState}
    (h : commit env s = Except.ok s2) : codes_unique s2.courses = true := by
  have he := commit_ok_eq h
  subst he
  cases env with
  | fail => simp [commit] at h
  | ok =>
      cases hu : codes_unique s2.courses with
      | true => rfl
      | false => simp [commit, hu] at h

theorem commitOr_unique {env : DbEnv} {sOld sNew : DBState} {fo : Outcome}
    {fr : Bool} (h : codes_unique sOld.courses = true) :
    codes_unique (commitOr env sOld sNew fo fr).db.courses = true := by
  unfold commitOr
  cases hc : commit env sNew with
  | ok s2 => simpa using commit_ok_unique hc
  | error e => simpa using h

theorem commitOr_success_db {env : DbEnv} {sOld sNew : DBState} {fo : Outcome}
    {fr : Bool} (hne : fo ≠ Outcome.success)
    (h : (commitOr env sOld sNew fo fr).outcome = Outcome.success) :
    (commitOr env sOld sNew fo fr).db = sNew := by
  unfold commitOr at h ⊢
  cases hc : commit env sNew with
  | ok s2 => simpa using commit_ok_eq hc
  | error e => rw [hc] at h; exact absurd h hne

theorem commitOr_fail (sOld sNew : DBState) (fo : Outcome) (fr : Bool) :
    commitOr DbEnv.fail sOld sNew fo fr
      = { db := sOld, outcome := fo, rolledBack := fr } := rfl

theorem hasSubstr_single (c : Char) (l : List Char) :
    hasSubstr [c] l = true ↔ c ∈ l := by
  induction l with
  | nil => simp [hasSubstr]
  | cons a rest ih =>
      have hp : ([c].isPrefixOf (a :: rest) = true) ↔ c = a := by
        simp [List.isPrefixOf]
      rw [hasSubstr, Bool.or_eq_true, hp, ih]
      simp [List.mem_cons]

theorem strIn_at_iff (s : String) : strIn "@" s = true ↔ '@' ∈ s.toList := by
  have h : ("@").toList = ['@'] := rfl
  unfold strIn
  rw [h]
  exact hasSubstr_single '@' s.toList


/-- C4: assigning an integer v to a Lesson duration or order raises ValueError when v ≤ 0, stores v unchanged when v ≥ 1, and every accepted integer value is positive. -/
theorem C4_lesson_positive_validators (v : Int) :
    (v ≤ 0 →
      validate_duration (some v) = Except.error "Duration must be positive"
      ∧ validate_order (some v) = Except.error "Order must be positive")
    ∧ (1 ≤ v →
      validate_duration (some v) = Except.ok (some v)
      ∧ validate_order (some v) = Except.ok (some v))
    ∧ (∀ r, validate_duration (some v) = Except.ok r → ∃ d, r = some d ∧ 1 ≤ d)
    ∧ (∀ r, validate_order (some v) = Except.ok r → ∃ d, r = some d ∧ 1 ≤ d) := by
  refine ⟨fun h => ?_, fun h => ?_, fun r hr => ?_, fun r hr => ?_⟩
  · simp [validate_duration, validate_order, h]
  · have : ¬ v ≤ 0 := by omega
    simp [validate_duration, validate_order, this]
  · by_cases h : v ≤ 0
    · simp [validate_duration, h] at hr
    · simp [validate_duration, h] at hr
      exact ⟨v, hr.symm, by omega⟩
  · by_cases h : v ≤ 0
    · simp [validate_order, h] at hr
    · simp [validate_order, h] at hr
      exact ⟨v, hr.symm, by omega⟩

/-- Witness for C4 at v = 3 and v = -2. -/
theorem C4_lesson_positive_validators_witness :
    validate_duration (some 3) = Except.ok (some 3)
    ∧ validate_order (some (-2)) = Except.error "Order must be positive" :=
  ⟨((C4_lesson_positive_validators 3).2.1 (by norm_num)).1,
   ((C4_lesson_positive_validators (-2)).1 (by norm_num)).2⟩

/-- C5: assigning a numeric p to an AssessmentFormat percentage raises ValueError iff p < 0 or p > 100; in-range values, including the boundaries 0 and 100, are stored unchanged. -/
theorem C5_percentage_validator (p : ℚ) :
    (validate_percentage (some p) = Except.error "Percentage must be between 0 and 100"
      ↔ (p < 0 ∨ p > 100))
    ∧ (0 ≤ p → p ≤ 100 → validate_percentage (some p) = Except.ok (some p)) := by
  constructor
  · by_cases h : p < 0 ∨ p > 100
    · simp [validate_percentage, h]
    · simp [validate_percentage, h]
  · intro h0 h100
    have h : ¬ (p < 0 ∨ p > 100) := by
      push_neg
      exact ⟨h0, h100⟩
    simp [validate_percentage, h]

/-- Witness for C5 at the boundary values 0 and 100 and at 101. -/
theorem C5_percentage_validator_witness :
    validate_percentage (some 0) = Except.ok (some 0)
    ∧ validate_percentage (some 100) = Except.ok (some 100)
    ∧ validate_percentage (some 101)
        = Except.error "Percentage must be between 0 and 100" :=
  ⟨(C5_percentage_validator 0).2 (by norm_num) (by norm_num),
   (C5_percentage_validator 100).2 (by norm_num) (by norm_num),
   (C5_percentage_validator 101).1.mpr (by norm_num)⟩

/-- C9: assigning None to a Lesson duration or order, or to an AssessmentFormat percentage, never raises and stores None: the validators pass None through. -/
theorem C9_validators_pass_none :
    validate_duration none = Except.ok none
    ∧ validate_order none = Except.ok none
    ∧ validate_percentage none = Except.ok none := by
  exact ⟨rfl, rfl, rfl⟩

/-- C10: assigning a string e to a Course contact_email raises ValueError iff e is non-empty and does not contain the character @; the empty string, None, and any string containing @ are stored unchanged. -/
theorem C10_email_validator (e : String) :
    (validate_email (some e) = Except.error "Invalid email format"
      ↔ (e ≠ "" ∧ '@' ∉ e.toList))
    ∧ validate_email none = Except.ok none
    ∧ ('@' ∈ e.toList → validate_email (some e) = Except.ok (some e))
    ∧ validate_email (some "") = Except.ok (some "") := by
  have hs : strIn "@" e = false ↔ '@' ∉ e.toList := by
    rw [← strIn_at_iff e]
    simp
  refine ⟨?_, rfl, fun h => ?_, rfl⟩
  · by_cases hc : e ≠ "" ∧ strIn "@" e = false
    · simp [validate_email, hc]
      exact hs.mp hc.2
    · simp [validate_email, hc]
      intro h1
      by_contra hnot
      exact hc ⟨h1, hs.mpr hnot⟩
  · have hc : ¬ (e ≠ "" ∧ strIn "@" e = false) := by
      intro hc
      exact hs.mp hc.2 h
    simp [validate_email, hc]

/-- Witness for C10 at a string containing @. -/
theorem C10_email_validator_witness :
    validate_email (some "a@b") = Except.ok (some "a@b") :=
  (C10_email_validator "a@b").2.2.1 (by decide)

theorem mapExcept_ok {α β : Type} (f : α → Except String β) (l : List α)
    (h : ∀ a ∈ l, ∃ b, f a = Except.ok b) :
    ∃ bs, mapExcept f l = Except.ok bs := by
  induction l with
  | nil => exact ⟨[], rfl⟩
  | cons a as ih =>
      obtain ⟨b, hb⟩ := h a (by simp)
      obtain ⟨bs, hbs⟩ := ih (fun x hx => h x (by simp [hx]))
      exact ⟨b :: bs, by simp [mapExcept, hb, hbs]⟩

theorem parseWeekTables_ok (E : RegexEngine) (hE : E.WeekNumbersNumeric)
    (body : String) : ∃ w, parseWeekTables E body = Except.ok w := by
  obtain ⟨w4, hw4⟩ := mapExcept_ok weekRow4 (E.findall4 table4_pattern body)
    (fun t ht => by
      obtain ⟨n, hn⟩ := Option.isSome_iff_exists.mp (hE.1 body t ht)
      exact ⟨_, by unfold weekRow4; rw [hn]⟩)
  unfold parseWeekTables
  rw [hw4]
  by_cases he : w4.isEmpty
  · simp only [he, if_true]
    exact mapExcept_ok weekRow3 (E.findall3 table3_pattern body)
      (fun t ht => by
        obtain ⟨n, hn⟩ := Option.isSome_iff_exists.mp (hE.2 body t ht)
        exact ⟨_, by unfold weekRow3; rw [hn]⟩)
  · simp only [he, Bool.false_eq_true, if_false]
    exact ⟨w4, rfl⟩

theorem weekly_structure_ok (E : RegexEngine) (hE : E.WeekNumbersNumeric)
    (md : String) : ∃ w, parse_standard_weekly_structure E md = Except.ok w := by
  unfold parse_standard_weekly_structure
  cases h1 : E.search weekly_pattern md with
  | some body => exact parseWeekTables_ok E hE body.1
  | none =>
      cases h2 : E.search weekly_alt_pattern md with
      | some body => exact parseWeekTables_ok E hE body.1
      | none => exact ⟨[], rfl⟩

/-- C6: with the real-regex guarantee that week-number groups are numerals, parse_comprehensive_syllabus never raises; each scalar field falls back to its documented default when its pattern does not match, unmatched list sections yield empty lists, and the Google Docs parser returns the default Untitled structure for empty content. -/
theorem C6_parse_falls_back_to_defaults (E : RegexEngine)
    (hE : E.WeekNumbersNumeric) (md : String) :
    (∃ r, parse_comprehensive_syllabus E md = Except.ok r
      ∧ (E.search title_pattern md = none → r.title = "Course Title")
      ∧ (E.search course_code_pattern md = none → r.course_code = "CODE-001")
      ∧ (E.search language_pattern md = none → r.language = "English")
      ∧ (E.search instructor_pattern md = none → r.instructor = "Kerem")
      ∧ (E.search aim_pattern md = none → r.aim = "Course aim not specified")
      ∧ (E.findall2 lo_pattern md = [] → r.learning_outcomes = [])
      ∧ (E.search weekly_pattern md = none → E.search weekly_alt_pattern md = none →
          r.weeks = [])
      ∧ (E.search assessment_section_pattern md = none → r.assessment_formats = [])
      ∧ (E.search tools_section_pattern md = none → r.tools = []))
    ∧ (∀ restParse, parse_to_course_structure restParse none = emptyGCourseStructure)
      := by
  constructor
  · obtain ⟨w, hw⟩ := weekly_structure_ok E hE md
    have hps : parse_comprehensive_syllabus E md = Except.ok {
        title := extract_value E title_pattern md "Course Title"
        course_code := extract_value E course_code_pattern md "CODE-001"
        level := extract_value E level_pattern md "HND Art & Design"
        instructor := extract_value E instructor_pattern md "Kerem"
        language := extract_value E language_pattern md "English"
        delivery_mode := extract_value E delivery_pattern md "Weekly seminars"
        aim := extract_value E aim_pattern md "Course aim not specified"
        learning_outcomes := (E.findall2 lo_pattern md).map
          (fun m => { code := m.1, description := m.2.trim })
        weeks := w
        assessment_formats :=
          match E.search assessment_section_pattern md with
          | none => []
          | some (body, _) =>
              (E.findall1 assessment_item_pattern body).map
                (fun m => { type := classify_assessment_type m, requirements := m })
        tools := parse_standard_tools_section E md } := by
      unfold parse_comprehensive_syllabus
      rw [hw]
    refine ⟨_, hps, ?_, ?_, ?_, ?_, ?_, ?_, ?_, ?_, ?_⟩
    · intro h; simp [extract_value, h]
    · intro h; simp [extract_value, h]
    · intro h; simp [extract_value, h]
    · intro h; simp [extract_value, h]
    · intro h; simp [extract_value, h]
    · intro h; simp [h]
    · intro h1 h2
      unfold parse_standard_weekly_structure at hw
      rw [h1, h2] at hw
      have : ([] : List WeekEntry) = w := by
        injection hw
      simpa using this.symm
    · intro h; simp [h]
    · intro h; simp [parse_standard_tools_section, h]
  · intro restParse
    rfl

/-- Witness for C6 at the engine on which nothing matches and empty content. -/
theorem C6_parse_falls_back_to_defaults_witness :
    (∃ r, parse_comprehensive_syllabus nullEngine "" = Except.ok r
      ∧ (nullEngine.search title_pattern "" = none → r.title = "Course Title")
      ∧ (nullEngine.search course_code_pattern "" = none → r.course_code = "CODE-001")
      ∧ (nullEngine.search language_pattern "" = none → r.language = "English")
      ∧ (nullEngine.search instructor_pattern "" = none → r.instructor = "Kerem")
      ∧ (nullEngine.search aim_pattern "" = none → r.aim = "Course aim not specified")
      ∧ (nullEngine.findall2 lo_pattern "" = [] → r.learning_outcomes = [])
      ∧ (nullEngine.search weekly_pattern "" = none →
          nullEngine.search weekly_alt_pattern "" = none → r.weeks = [])
      ∧ (nullEngine.search assessment_section_pattern "" = none →
          r.assessment_formats = [])
      ∧ (nullEngine.search tools_section_pattern "" = none → r.tools = []))
    ∧ (∀ restParse, parse_to_course_structure restParse none = emptyGCourseStructure)
      :=
  C6_parse_falls_back_to_defaults nullEngine
    ⟨fun body t ht => by simp [nullEngine] at ht,
     fun body t ht => by simp [nullEngine] at ht⟩ ""

theorem classify_loop_eq_find (table : List (String × List String)) (dl : String) :
    classify_bloom_level_loop table dl
      = (match table.find? (fun lk => lk.2.any (fun kw => strIn kw dl)) with
         | some lk => pyCapitalize lk.1
         | none => "Unknown") := by
  induction table with
  | nil => rfl
  | cons hd rest ih =>
      obtain ⟨level, keywords⟩ := hd
      cases hh : keywords.any (fun kw => strIn kw dl) with
      | true => simp [classify_bloom_level_loop, List.find?, hh]
      | false => simp [classify_bloom_level_loop, List.find?, hh, ih]

/-- C7: the Bloom classifier is the deterministic first-match keyword scan: it equals the spec-side definition (first level in the fixed order with a keyword substring of the lowercased description, capitalized; Unknown otherwise), and the table order is exactly remember, understand, apply, analyze, evaluate, create. -/
theorem C7_bloom_classifier_first_match (d : String) :
    classify_bloom_level d = bloomLevelSpec d
    ∧ bloom_keywords.map Prod.fst
        = ["remember", "understand", "apply", "analyze", "evaluate", "create"]
    ∧ bloomLevelSpec "" = "Unknown" := by
  refine ⟨?_, rfl, by decide⟩
  unfold classify_bloom_level bloomLevelSpec
  exact classify_loop_eq_find bloom_keywords (pyLower d)

/-- C1: the claim fails on the code: `export_data` reads `lesson.objectives`, a column the Lesson model does not declare, so for any course with at least one lesson the export raises AttributeError (caught; the command reports failure), instead of succeeding with metadata totals; with zero lessons it succeeds and the metadata totals are the stored count and sum (trivially 0). -/
theorem C1_export_reads_missing_lesson_objectives :
    export_data dbTwoCourses 1 "json" "t" = (false, none)
    ∧ lessonGetAttr (mkLessonRow 1 1 (some 60) (some 1)) "objectives"
        = Except.error "AttributeError: objectives"
    ∧ export_data dbOneCourse 1 "json" "t"
        = (true, some (PyVal.vDict [
            ("course", exportCourseDict (mkCourseRow 1 "CS101")),
            ("lessons", PyVal.vList []),
            ("metadata", PyVal.vDict [
              ("exported_at", PyVal.vStr "t"),
              ("total_lessons", PyVal.vInt 0),
              ("total_duration", PyVal.vInt 0)])])) :=
  ⟨rfl, rfl, rfl⟩

/-- C2: when the web delete_course route commits a delete of a course, no Lesson, LearningOutcome, AssessmentFormat, or Tool row referencing that course remains, and the course itself is gone. -/
theorem C2_delete_course_cascades (env : DbEnv) (s : DBState) (cid : Nat)
    (h : (delete_course env s cid).outcome = Outcome.success) :
    (∀ c ∈ (delete_course env s cid).db.courses, c.id ≠ cid)
    ∧ (∀ l ∈ (delete_course env s cid).db.lessons, l.course_id ≠ cid)
    ∧ (∀ o ∈ (delete_course env s cid).db.learning_outcomes, o.course_id ≠ cid)
    ∧ (∀ a ∈ (delete_course env s cid).db.assessment_formats, a.course_id ≠ cid)
    ∧ (∀ t ∈ (delete_course env s cid).db.tools, t.course_id ≠ cid) := by
  cases hf : s.courses.find? (fun c => c.id == cid) with
  | none =>
      unfold delete_course at h
      rw [hf] at h
      simp at h
  | some c0 =>
      have hred : delete_course env s cid
          = commitOr env s (cascadeDelete s cid) Outcome.flashedError true := by
        unfold delete_course
        rw [hf]
      rw [hred] at h ⊢
      have hdb := commitOr_success_db (by decide) h
      rw [hdb]
      refine ⟨?_, ?_, ?_, ?_, ?_⟩ <;>
        · intro x hx
          simp only [cascadeDelete, List.mem_filter, decide_eq_true_eq] at hx
          exact hx.2

/-- Witness for C2: deleting course 1 from a two-course database with children. -/
theorem C2_delete_course_cascades_witness :
    (∀ c ∈ (delete_course DbEnv.ok dbTwoCourses 1).db.courses, c.id ≠ 1)
    ∧ (∀ l ∈ (delete_course DbEnv.ok dbTwoCourses 1).db.lessons, l.course_id ≠ 1)
    ∧ (∀ o ∈ (delete_course DbEnv.ok dbTwoCourses 1).db.learning_outcomes,
        o.course_id ≠ 1)
    ∧ (∀ a ∈ (delete_course DbEnv.ok dbTwoCourses 1).db.assessment_formats,
        a.course_id ≠ 1)
    ∧ (∀ t ∈ (delete_course DbEnv.ok dbTwoCourses 1).db.tools, t.course_id ≠ 1) :=
  C2_delete_course_cascades DbEnv.ok dbTwoCourses 1 (by rfl)

/-- C3: course codes stay pairwise distinct: starting from a state whose codes are unique, create_course and edit_course (duplicate codes are rejected by the unique constraint at commit, leaving the state unchanged) preserve uniqueness. -/
theorem C3_course_codes_stay_unique (env : DbEnv) (s : DBState) (req : CourseReq)
    (newId cid : Nat) (h : codes_unique s.courses = true) :
    codes_unique (create_course env s req newId).db.courses = true
    ∧ codes_unique (edit_course env s cid req).db.courses = true := by
  constructor
  · unfold create_course
    cases hf : req.formValid with
    | true =>
        simp only [hf, if_true]
        cases hm : makeCourse newId req with
        | error e => simpa using h
        | ok c => exact commitOr_unique h
    | false =>
        simp only [hf, Bool.false_eq_true, if_false]
        cases hm : makeCourse newId req with
        | error e => simpa using h
        | ok c => exact commitOr_unique h
  · unfold edit_course
    cases hfind : s.courses.find? (fun c => c.id == cid) with
    | none => simpa using h
    | some c =>
        cases hv : validate_email (some req.contact_email) with
        | error e => simpa using h
        | ok em => exact commitOr_unique h

/-- Witness for C3: a create and an edit with a duplicate code against the one-course state. -/
theorem C3_course_codes_stay_unique_witness :
    codes_unique (create_course DbEnv.ok dbOneCourse reqDup 2).db.courses = true
    ∧ codes_unique (edit_course DbEnv.ok dbOneCourse 1 reqDup).db.courses = true :=
  C3_course_codes_stay_unique DbEnv.ok dbOneCourse reqDup 2 1 (by rfl)

/-- C8 counterexample: a POST that passes form validation and then fails at commit (duplicate course code) leaves the route with a propagated exception and no rollback, contrary to the claim that every failed create/edit/delete rolls back and flashes. -/
theorem C8_counterexample_unprotected_create :
    create_course DbEnv.ok dbOneCourse reqDup 2
      = { db := dbOneCourse, outcome := Outcome.uncaughtError, rolledBack := false } := by
  rfl

/-- C8 amended: on the guarded paths — the fallback create branch, edit_course, delete_course, create_lesson, edit_lesson and delete_lesson — a database error at commit makes the route roll back, flash an error, and leave the persisted state unchanged; only the form-validated create branch propagates the error without rollback. -/
theorem C8_rollback_and_flash_on_db_error (s : DBState) (req : CourseReq)
    (lreq : LessonReq) (cid lid newId : Nat) :
    (req.formValid = false → (∃ c, makeCourse newId req = Except.ok c) →
      create_course DbEnv.fail s req newId
        = { db := s, outcome := Outcome.flashedError, rolledBack := true })
    ∧ ((s.courses.find? (fun c => c.id == cid)).isSome = true →
        (∃ em, validate_email (some req.contact_email) = Except.ok em) →
      edit_course DbEnv.fail s cid req
        = { db := s, outcome := Outcome.flashedError, rolledBack := true })
    ∧ ((s.courses.find? (fun c => c.id == cid)).isSome = true →
      delete_course DbEnv.fail s cid
        = { db := s, outcome := Outcome.flashedError, rolledBack := true })
    ∧ ((s.courses.find? (fun c => c.id == cid)).isSome = true →
        (∃ l, makeLesson newId cid lreq = Except.ok l) →
      create_lesson DbEnv.fail s cid lreq newId
        = { db := s, outcome := Outcome.flashedError, rolledBack := true })
    ∧ ((s.lessons.find? (fun l => l.id == lid)).isSome = true →
        lreq.title.isSome = true →
      edit_lesson DbEnv.fail s lid lreq
        = { db := s, outcome := Outcome.flashedError, rolledBack := true })
    ∧ ((s.lessons.find? (fun l => l.id == lid)).isSome = true →
      delete_lesson DbEnv.fail s lid
        = { db := s, outcome := Outcome.flashedError, rolledBack := true }) := by
  refine ⟨fun hf hm => ?_, fun hfind hv => ?_, fun hfind => ?_, fun hfind hm => ?_,
    fun hfind ht => ?_, fun hfind => ?_⟩
  · obtain ⟨c, hc⟩ := hm
    unfold create_course
    simp [hf, hc]
    rfl
  · obtain ⟨c, hc⟩ := Option.isSome_iff_exists.mp hfind
    obtain ⟨em, hem⟩ := hv
    unfold edit_course
    rw [hc, hem]
    rfl
  · obtain ⟨c, hc⟩ := Option.isSome_iff_exists.mp hfind
    unfold delete_course
    rw [hc]
    rfl
  · obtain ⟨c, hc⟩ := Option.isSome_iff_exists.mp hfind
    obtain ⟨l, hl⟩ := hm
    unfold create_lesson
    rw [hc, hl]
    rfl
  · obtain ⟨l, hl⟩ := Option.isSome_iff_exists.mp hfind
    obtain ⟨t, htt⟩ := Option.isSome_iff_exists.mp ht
    unfold edit_lesson
    rw [hl, htt]
    rfl
  · obtain ⟨l, hl⟩ := Option.isSome_iff_exists.mp hfind
    unfold delete_lesson
    rw [hl]
    rfl

/-- Witness for C8 amended: concrete fallback create, course edit and delete, lesson create, edit and delete against the two-course state with a dead backend. -/
theorem C8_rollback_and_flash_on_db_error_witness :
    (create_course DbEnv.fail dbTwoCourses reqDupFallback 3
      = { db := dbTwoCourses, outcome := Outcome.flashedError, rolledBack := true })
    ∧ (edit_course DbEnv.fail dbTwoCourses 1 reqDupFallback
      = { db := dbTwoCourses, outcome := Outcome.flashedError, rolledBack := true })
    ∧ (delete_course DbEnv.fail dbTwoCourses 1
      = { db := dbTwoCourses, outcome := Outcome.flashedError, rolledBack := true })
    ∧ (create_lesson DbEnv.fail dbTwoCourses 1 lreqPlain 3
      = { db := dbTwoCourses, outcome := Outcome.flashedError, rolledBack := true })
    ∧ (edit_lesson DbEnv.fail dbTwoCourses 1 lreqPlain
      = { db := dbTwoCourses, outcome := Outcome.flashedError, rolledBack := true })
    ∧ (delete_lesson DbEnv.fail dbTwoCourses 1
      = { db := dbTwoCourses, outcome := Outcome.flashedError, rolledBack := true }) := by
  have h := C8_rollback_and_flash_on_db_error dbTwoCourses reqDupFallback lreqPlain 1 1 3
  exact ⟨h.1 rfl ⟨_, rfl⟩, h.2.1 rfl ⟨_, rfl⟩, h.2.2.1 rfl,
    h.2.2.2.1 rfl ⟨_, rfl⟩, h.2.2.2.2.1 rfl rfl, h.2.2.2.2.2 rfl⟩

end Pearson
